import Mathlib

/-
Verification of the Recon-Assistant event bot (src/index.js).

The repository contains two near-duplicate program variants concatenated in
one file: variant A (the older "Computron Recon core", join flow only) and
variant B (the "Recon Assistant", join flow plus the reaction-to-CRM-note
pipeline).  Both are embedded below; definitions carry the source names,
with an `A` suffix for variant A where both variants define a function of
the same name.

External calls (chat-platform REST lookups, CRM HTTP calls) are modelled by
environment records supplying each call result; the handlers become pure
functions from configuration, environment, event, dedupe-store state and the
current clock value to a new store plus an effect record that counts the
outbound calls and collects the posted messages.
-/

set_option maxRecDepth 4096

/- ===== generic JS-style helpers ===== -/

/-- JS `a || b` for a possibly-undefined string `a`: an absent value and the
empty string are both falsy. -/
def jsOrStr : Option String → String → String
  | some s, fb => if s = "" then fb else s
  | none, fb => fb

/-- JS `a || b` where both sides are possibly-undefined strings. -/
def jsOrOpt : Option String → Option String → Option String
  | some s, b => if s = "" then b else some s
  | none, b => b

/-- JS truthiness filter on a string option: `x || null`. -/
def jsTruthyOpt : Option String → Option String
  | some s => if s = "" then none else some s
  | none => none

/-- Decimal value of a digit string, JS `Number(s)` for the all-digit
strings the regex capture groups produce. -/
def jsNumberOfDigits (s : String) : Nat :=
  s.data.foldl (fun n c => n * 10 + (c.toNat - 48)) 0

/-- JS `/^\d+$/.test(s)`. -/
def isAllDigits (s : String) : Bool :=
  decide (s ≠ "") && s.data.all (fun c => c.isDigit)

/-- Whether the leading characters of the second list are exactly the first
list (the matcher a left-to-right literal-pattern scan runs at one spot). -/
def leadingMatch : List Char → List Char → Bool
  | [], _ => true
  | _ :: _, [] => false
  | p :: ps, c :: cs => if p = c then leadingMatch ps cs else false

/-- Left-to-right scan for a literal character sequence, the semantics of a
JS `RegExp.test` with a literal pattern. -/
def containsSeq (pat : List Char) : List Char → Bool
  | [] => leadingMatch pat []
  | c :: cs => leadingMatch pat (c :: cs) || containsSeq pat cs

/- ===== Channel Classifier, variant B (src/index.js lines 434-441) =====
   function extractDealIdFromChannelName(channelName = "") {
     const m = String(channelName).match(/deal(\d+)/i);
     return m ? m[1] : null;
   }
   function isReconChannelName(channelName = "") {
     return RECON_CHANNEL_REGEX.test(channelName);
   }
   with RECON_CHANNEL_REGEX = new RegExp(process.env.RECON_CHANNEL_REGEX || "rcn", "i").
-/

/-- One attempt of `/deal(\d+)/i` at the head of the list: the four literal
letters case-insensitively, then a maximal nonempty digit run. -/
def dealDigitsAt (cs : List Char) : Option (List Char) :=
  match cs with
  | c1 :: c2 :: c3 :: c4 :: rest =>
    if c1.toLower = 'd' ∧ c2.toLower = 'e' ∧ c3.toLower = 'a' ∧ c4.toLower = 'l' then
      if (rest.takeWhile (fun c => c.isDigit)).isEmpty then none
      else some (rest.takeWhile (fun c => c.isDigit))
    else none
  | _ => none

/-- The regex engine scan: try each start position left to right. -/
def scanDealDigits : List Char → Option (List Char)
  | [] => none
  | c :: cs =>
    match dealDigitsAt (c :: cs) with
    | some ds => some ds
    | none => scanDealDigits cs

/-- Variant B `extractDealIdFromChannelName`: first match of `/deal(\d+)/i`,
returning the captured digit run as a string, else null. -/
def extractDealIdFromChannelName (channelName : String) : Option String :=
  (scanDealDigits channelName.data).map (fun ds => String.mk ds)

/-- Default recon-channel pattern of variant B (env `RECON_CHANNEL_REGEX`
defaulting to "rcn", flag `i`). -/
def RECON_CHANNEL_PATTERN : List Char := ['r', 'c', 'n']

/-- Variant B `isReconChannelName` under the default configuration:
`/rcn/i.test(channelName)`, i.e. a case-insensitive substring search. -/
def isReconChannelName (channelName : String) : Bool :=
  containsSeq RECON_CHANNEL_PATTERN (channelName.data.map Char.toLower)

/- ===== Channel Classifier, variant A (src/index.js lines 93-101) =====
   function isReconChannelName(name = "") {
     return String(name).toLowerCase().startsWith("rcn-");
   }
   function extractDealIdFromChannelName(name = "") {
     const m = String(name).toLowerCase().match(/deal(\d+)\b/);
     return m ? m[1] : null;
   }
-/

/-- JS word character, the `\w` class `[A-Za-z0-9_]` used by `\b`. -/
def isWordCharJS (c : Char) : Bool := c.isAlphanum || c = '_'

/-- One attempt of `/deal(\d+)\b/` at the head of an already-lowercased
list: the literal letters, a maximal nonempty digit run, then a word
boundary (end of input or a non-word character).  Backtracking inside the
digit run can never create a boundary, since the next character would again
be a digit. -/
def dealDigitsBoundaryAt (cs : List Char) : Option (List Char) :=
  match cs with
  | c1 :: c2 :: c3 :: c4 :: rest =>
    if c1 = 'd' ∧ c2 = 'e' ∧ c3 = 'a' ∧ c4 = 'l' then
      let ds := rest.takeWhile (fun c => c.isDigit)
      if ds.isEmpty then none
      else
        match rest.drop ds.length with
        | [] => some ds
        | c :: _ => if isWordCharJS c then none else some ds
    else none
  | _ => none

/-- Scan of `/deal(\d+)\b/` over all start positions. -/
def scanDealDigitsBoundary : List Char → Option (List Char)
  | [] => none
  | c :: cs =>
    match dealDigitsBoundaryAt (c :: cs) with
    | some ds => some ds
    | none => scanDealDigitsBoundary cs

/-- Variant A `extractDealIdFromChannelName`: lowercase the whole name, then
first match of `/deal(\d+)\b/`. -/
def extractDealIdFromChannelNameA (name : String) : Option String :=
  (scanDealDigitsBoundary (name.data.map Char.toLower)).map (fun ds => String.mk ds)

/-- Variant A `isReconChannelName`: lowercased name starts with "rcn-". -/
def isReconChannelNameA (name : String) : Bool :=
  leadingMatch ['r', 'c', 'n', '-'] (name.data.map Char.toLower)

/-- Position predicate used to state the classifier claims: the literal
"deal" (any case) sits at index `i` and is immediately followed by at least
one digit. -/
def dealMatchAt (cs : List Char) (i : Nat) : Bool :=
  (dealDigitsAt (cs.drop i)).isSome

/- ===== Deduplication Store (src/index.js lines 667-671) =====
   const noteDedupe = new Map();
   function recentlyNoted(key, ms = 5 * 60 * 1000) {
     const t = noteDedupe.get(key);
     return t && Date.now() - t < ms;
   }
   On success the handler runs noteDedupe.set(cacheKey, Date.now()).
   The Map is modelled as an association list whose `set` prepends (a later
   entry shadows an earlier one, matching Map.set overwrite under the
   first-match `get` below).  Timestamps are Nat clock values; the JS
   truthiness test on `t` makes a stored 0 behave like a missing entry. -/

def DedupeStore : Type := List (String × Nat)

def mapGet : List (String × Nat) → String → Option Nat
  | [], _ => none
  | (k, v) :: rest, key => if key = k then some v else mapGet rest key

def mapSet (store : List (String × Nat)) (key : String) (v : Nat) : List (String × Nat) :=
  (key, v) :: store

/-- Default dedupe window, 5 * 60 * 1000 ms. -/
def PD_NOTE_DEDUPE_MS : Int := 5 * 60 * 1000

def recentlyNoted (store : DedupeStore) (key : String) (now : Nat) : Bool :=
  match mapGet store key with
  | some t => decide (t ≠ 0) && decide ((now : Int) - (t : Int) < PD_NOTE_DEDUPE_MS)
  | none => false

/- ===== Accepted reactions (src/index.js lines 661-665) ===== -/

def PD_NOTE_REACTIONS : List String :=
  ["white_check_mark", "heavy_check_mark", "ballot_box_with_check"]

/- ===== Identity resolution (src/index.js lines 800-816) =====
   The users.info payload; the code reads only user.real_name and
   user.profile.display_name.  The normalized real name and the handle are
   carried in the record because the platform sends them, but no code path
   consults them. -/

structure SlackUser where
  real_name : Option String
  real_name_normalized : Option String
  display_name : Option String
  name : Option String
deriving DecidableEq

/-- authorName = authorInfo?.user?.real_name ||
      authorInfo?.user?.profile?.display_name ||
      (msg.user ? mention : "unknown") -/
def resolveAuthorName (info : Option SlackUser) (msgUser : Option String) : String :=
  jsOrStr (info.bind (fun u => u.real_name))
    (jsOrStr (info.bind (fun u => u.display_name))
      (match msgUser with
       | some u => "<@" ++ u ++ ">"
       | none => "unknown"))

/-- reactorName = reactorInfo?.user?.real_name ||
      reactorInfo?.user?.profile?.display_name || mention -/
def resolveReactorName (info : Option SlackUser) (uid : String) : String :=
  jsOrStr (info.bind (fun u => u.real_name))
    (jsOrStr (info.bind (fun u => u.display_name)) ("<@" ++ uid ++ ">"))

/- ===== Note Formatter (src/index.js lines 701-719) ===== -/

/-- The `linkLine` of buildNoteFromSlack: `permalink ? "\n\nSlack link: ..." : ""`. -/
def linkLineOf : Option String → String
  | some p => if p = "" then "" else "\n\nSlack link: " ++ p
  | none => ""

/-- The `filesLine` of buildNoteFromSlack:
`attachmentsList?.length ? "\n\nAttachments:\n- ..." : ""`. -/
def filesLineOf (attachmentsList : List String) : String :=
  if attachmentsList.isEmpty then ""
  else "\n\nAttachments:\n- " ++ String.intercalate "\n- " attachmentsList

/-- buildNoteFromSlack, a pure concatenation; the message body `text` is
inserted verbatim, with the literal "(no text)" for an empty body. -/
def buildNoteFromSlack (channelName reactorName authorName : String)
    (permalink : Option String) (text : String) (attachmentsList : List String) : String :=
  "Slack note from #" ++ channelName ++
  "\nAuthor: " ++ authorName ++
  "\nApproved by: " ++ reactorName ++
  "\n\nMessage:\n" ++ (if text = "" then "(no text)" else text) ++
  filesLineOf attachmentsList ++ linkLineOf permalink

/- ===== Reaction Pipeline (src/index.js lines 729-903) ===== -/

structure SlackFile where
  name : String
  filetype : String
deriving DecidableEq

/-- The message returned by conversations.history (fields the handler reads). -/
structure Msg where
  user : Option String
  text : Option String
  files : Option (List SlackFile)
deriving DecidableEq

structure ReactionEvent where
  reaction : String
  user : String
  channel : Option String
  ts : Option String
deriving DecidableEq

structure Config where
  enableReactionToPdNote : Bool
  reactionUploadFiles : Bool
deriving DecidableEq

/-- Results of the external calls one handler run would issue.  A
`Except.error` is a thrown/rejected call; the three identity lookups carry
`Option` because the code wraps each in `.catch(() => null)`; `noteRes` is
either a thrown diagnostic (network error) or the truthiness of the
response `success` flag. -/
structure Env where
  infoRes : Except String String
  histRes : Except String (Option Msg)
  authorRes : Option SlackUser
  reactorRes : Option SlackUser
  permalinkRes : Option String
  fileDownloadOk : Nat → Bool
  noteRes : Except String Bool

/-- Outbound side effects of one handler run: call counts for every
external surface plus the posted thread replies and CRM note payloads. -/
structure Effects where
  infoCalls : Nat
  historyCalls : Nat
  userInfoCalls : Nat
  permalinkCalls : Nat
  pdNoteCalls : List (Nat × String)
  pdFileCalls : Nat
  threadReplies : List String
  reactionAddCalls : Nat
deriving DecidableEq

def noEffects : Effects :=
  { infoCalls := 0, historyCalls := 0, userInfoCalls := 0, permalinkCalls := 0,
    pdNoteCalls := [], pdFileCalls := 0, threadReplies := [], reactionAddCalls := 0 }

def channelInfoErrorReply (code : String) : String :=
  "⚠️ I received the ✅ reaction but couldn\x27t read channel info.\nError: *" ++ code ++
  "*\nCheck scopes: channels:read / groups:read"

def dealFormatReply : String :=
  "⚠️ Channel name must include “deal###” (example: rcn-something-deal603)."

def historyErrorReply (code : String) : String :=
  "⚠️ I received the ✅ reaction but couldn\x27t read the message.\nError: *" ++ code ++
  "*\nCommon fixes:\n• Bot must be in the channel\n• Scopes: channels:history (public) and/or groups:history (private)"

def pdApiErrorReply (dealId diag : String) : String :=
  "⚠️ Pipedrive API error while creating note for deal *" ++ dealId ++ "*.\n```\n" ++ diag ++ "\n```"

def successReply (dealId : String) : String :=
  "✅ Sent to Pipedrive deal *" ++ dealId ++ "*."

def unknownResponseReply : String :=
  "⚠️ Failed to send to Pipedrive (unknown response)."

/-- The formatted note submitted by a run that reaches the submit stage. -/
def submitContent (env : Env) (ev : ReactionEvent) (channelName : String) (m : Msg) : String :=
  buildNoteFromSlack channelName
    (resolveReactorName env.reactorRes ev.user)
    (resolveAuthorName (if m.user.isSome then env.authorRes else none) m.user)
    env.permalinkRes (m.text.getD "")
    ((m.files.getD []).map (fun f => f.name ++ " (" ++ f.filetype ++ ")"))

/-- Pipedrive file uploads attempted: one per attachment whose private
download succeeded, only when REACTION_UPLOAD_FILES is on; a failed upload
is caught and the loop continues. -/
def uploadCount (cfg : Config) (env : Env) (m : Msg) : Nat :=
  if cfg.reactionUploadFiles then
    ((List.range (m.files.getD []).length).filter (fun i => env.fileDownloadOk i)).length
  else 0

/-- Effects common to the three submit outcomes: the lookups already made
plus the single pdPost("notes", {deal_id: Number(dealId), content}). -/
def submitBaseEffects (cfg : Config) (env : Env) (ev : ReactionEvent)
    (channelName dealId : String) (m : Msg) : Effects :=
  { infoCalls := 1, historyCalls := 1,
    userInfoCalls := (if m.user.isSome then 1 else 0) + 1,
    permalinkCalls := 1,
    pdNoteCalls := [(jsNumberOfDigits dealId, submitContent env ev channelName m)],
    pdFileCalls := uploadCount cfg env m,
    threadReplies := [], reactionAddCalls := 0 }

/-- The reaction_added handler (src/index.js lines 729-903), one run per
inbound event.  Returns the dedupe store after the run and the effects the
run issued.  The top-level try/catch only logs, so every path is total. -/
def handleReactionAdded (cfg : Config) (env : Env) (ev : ReactionEvent)
    (store : DedupeStore) (now : Nat) : DedupeStore × Effects :=
  if cfg.enableReactionToPdNote = false then (store, noEffects) else
  match ev.channel, ev.ts with
  | some channelId, some ts =>
    if channelId = "" ∨ ts = "" then (store, noEffects) else
    if PD_NOTE_REACTIONS.contains ev.reaction = false then (store, noEffects) else
    let cacheKey := channelId ++ ":" ++ ts
    if recentlyNoted store cacheKey now then (store, noEffects) else
    match env.infoRes with
    | Except.error code =>
      (store, { noEffects with infoCalls := 1, threadReplies := [channelInfoErrorReply code] })
    | Except.ok channelName =>
      match extractDealIdFromChannelName channelName with
      | none =>
        (store, { noEffects with infoCalls := 1, threadReplies := [dealFormatReply] })
      | some dealId =>
        match env.histRes with
        | Except.error code =>
          (store, { noEffects with
                    infoCalls := 1
                    historyCalls := 1
                    threadReplies := [historyErrorReply code] })
        | Except.ok none =>
          (store, { noEffects with infoCalls := 1, historyCalls := 1 })
        | Except.ok (some m) =>
          match env.noteRes with
          | Except.error diag =>
            (store, { submitBaseEffects cfg env ev channelName dealId m with
                      threadReplies := [pdApiErrorReply dealId (diag.take 800)] })
          | Except.ok true =>
            (mapSet store cacheKey now,
             { submitBaseEffects cfg env ev channelName dealId m with
               reactionAddCalls := 1
               threadReplies := [successReply dealId] })
          | Except.ok false =>
            (store, { submitBaseEffects cfg env ev channelName dealId m with
                      threadReplies := [unknownResponseReply] })
  | _, _ => (store, noEffects)

/- ===== Pipedrive custom-field values =====
   A deal payload maps 40-hex custom-field keys to values that are numbers,
   strings, {value, label} objects, or null.  Exotic JS Number coercions
   that Pipedrive never sends (objects, non-decimal strings) are NaN in JS
   and map to `none` here. -/

inductive PDValue where
  | vnum (n : Int)
  | vstr (s : String)
  | vobj (value : Option PDValue) (label : Option String)
  | vnull

def PDDeal : Type := List (String × PDValue)

def pdLookupKey : List (String × PDValue) → String → Option PDValue
  | [], _ => none
  | (k, v) :: rest, key => if key = k then some v else pdLookupKey rest key

def lookupIntStr : List (Int × String) → Int → Option String
  | [], _ => none
  | (k, v) :: rest, key => if key = k then some v else lookupIntStr rest key

/- ===== Variant B join flow (src/index.js lines 341-656) ===== -/

def ALWAYS_INVITE_USER_IDS : List String :=
  ["U09PUG47MAM", "U05G8MQ54JD", "U086RE5K3LY"]

def CORE_INVITE_USER_IDS : List String := []

def getInviteList : List String :=
  (ALWAYS_INVITE_USER_IDS ++ CORE_INVITE_USER_IDS).eraseDups

/-- Default PM configuration of variant B: the env PM_FIELD_KEY is unset and
both PM mapping tables are empty (all entries commented out in source). -/
def PM_FIELD_KEY : String := ""

def PM_ENUM_ID_TO_NAME : List (Int × String) := []

def PM_ENUM_ID_TO_SLACK : List (Int × String) := []

/-- normalizeEnumValue: number, all-digit string, or object whose .value is
a number or all-digit string; everything else is null. -/
def normalizeEnumValue : PDValue → Option Int
  | PDValue.vnum n => some n
  | PDValue.vstr s => if isAllDigits s then some ((jsNumberOfDigits s : Nat) : Int) else none
  | PDValue.vobj ov _ =>
    match ov with
    | some (PDValue.vnum n) => some n
    | some (PDValue.vstr s) => if isAllDigits s then some ((jsNumberOfDigits s : Nat) : Int) else none
    | _ => none
  | PDValue.vnull => none

def isHex40 (k : String) : Bool :=
  k.length = 40 && k.data.all (fun c => c.isDigit || ('a' ≤ c ∧ c ≤ 'f') || ('A' ≤ c ∧ c ≤ 'F'))

/-- probeLikelyPmField: scan the deal for a 40-hex custom field whose label
(or string value) matches a known PM name; with PM_ENUM_ID_TO_NAME empty it
returns null immediately. -/
def probeLikelyPmField (deal : PDDeal) : Option (String × PDValue) :=
  let knownNames :=
    (PM_ENUM_ID_TO_NAME.map (fun p => (p.2.trim).toLower)).filter (fun s => s ≠ "")
  if knownNames.isEmpty then none
  else deal.find? (fun kv =>
    isHex40 kv.1 &&
    (match kv.2 with
     | PDValue.vobj _ (some l) => knownNames.contains ((l.trim).toLower)
     | PDValue.vstr s => knownNames.contains ((s.trim).toLower)
     | _ => false))

structure PmInfo where
  pmEnumId : Option Int
  pmName : Option String
  pmFieldKeyUsed : Option String
deriving DecidableEq

/-- pmName = label || PM_ENUM_ID_TO_NAME[id] || (string value) with JS
falsiness, finally `pmName || null`. -/
def pmNameOfValue (v : PDValue) (id : Option Int) : Option String :=
  let label : Option String :=
    match v with
    | PDValue.vobj _ (some l) => some l
    | _ => none
  let fromId : Option String :=
    match id with
    | some i => lookupIntStr PM_ENUM_ID_TO_NAME i
    | none => none
  let fromStr : Option String :=
    match v with
    | PDValue.vstr s => some s
    | _ => none
  jsTruthyOpt (jsOrOpt label (jsOrOpt fromId fromStr))

def readPmFromDeal (deal : Option PDDeal) : PmInfo :=
  match deal with
  | none => { pmEnumId := none, pmName := none, pmFieldKeyUsed := none }
  | some d =>
    let direct : Option PDValue :=
      if PM_FIELD_KEY = "" then none
      else
        match pdLookupKey d PM_FIELD_KEY with
        | some PDValue.vnull => none
        | some v => some v
        | none => none
    match direct with
    | some v =>
      let id := normalizeEnumValue v
      { pmEnumId := id, pmName := pmNameOfValue v id, pmFieldKeyUsed := some PM_FIELD_KEY }
    | none =>
      match probeLikelyPmField d with
      | some (k, v) =>
        let id := normalizeEnumValue v
        { pmEnumId := id, pmName := pmNameOfValue v id, pmFieldKeyUsed := some k }
      | none => { pmEnumId := none, pmName := none, pmFieldKeyUsed := none }

/-- safeConversationsInvite issues ceil(n / 30) conversations.invite calls
for a nonempty id list. -/
def inviteCallCount (userIds : List String) : Nat :=
  if userIds.isEmpty then 0 else (userIds.length + 29) / 30

def pmInvitedMessage (pmName : Option String) : String :=
  "✅ Recon Assistant invited required users + PM (" ++ jsOrStr pmName "Project Manager" ++ ")."

def pmNotInvitedMessage (dealId : String) (pmName pmFieldKeyUsed : Option String) : String :=
  "✅ Recon Assistant invited required users.\n⚠️ PM not auto-invited (no mapping yet). Deal " ++ dealId
  ++ (match pmName with
      | some n => if n = "" then "" else " • PM=" ++ n
      | none => "")
  ++ (match pmFieldKeyUsed with
      | some k => if k = "" then "" else " • field=" ++ k
      | none => "")

/-- External-call results for one variant B join-flow run. -/
structure JoinEnv where
  infoRes : Except String String
  dealRes : Except String (Option PDDeal)

structure JoinEffects where
  joinCalls : Nat
  infoCalls : Nat
  inviteCalls : Nat
  dealFetches : Nat
  channelMessages : List String
deriving DecidableEq

/-- handleBotJoinedChannel (src/index.js lines 588-639): join, read channel
info (a thrown lookup propagates to the event-level catch and is only
logged), skip non-recon channels, invite the baseline users, then silently
skip when the name has no deal id; otherwise fetch the deal and post the PM
summary message.  chat.postMessage calls are modelled as succeeding; their
failure is caught by the surrounding try and logged only. -/
def handleBotJoinedChannel (env : JoinEnv) : JoinEffects :=
  match env.infoRes with
  | Except.error _ =>
    { joinCalls := 1, infoCalls := 1, inviteCalls := 0, dealFetches := 0, channelMessages := [] }
  | Except.ok channelName =>
    if isReconChannelName channelName = false then
      { joinCalls := 1, infoCalls := 1, inviteCalls := 0, dealFetches := 0, channelMessages := [] }
    else
      let inv := inviteCallCount getInviteList
      match extractDealIdFromChannelName channelName with
      | none =>
        { joinCalls := 1, infoCalls := 1, inviteCalls := inv, dealFetches := 0, channelMessages := [] }
      | some dealId =>
        match env.dealRes with
        | Except.error _ =>
          { joinCalls := 1, infoCalls := 1, inviteCalls := inv, dealFetches := 1, channelMessages := [] }
        | Except.ok none =>
          { joinCalls := 1, infoCalls := 1, inviteCalls := inv, dealFetches := 1, channelMessages := [] }
        | Except.ok (some deal) =>
          let pm := readPmFromDeal (some deal)
          let pmSlackId : Option String :=
            match pm.pmEnumId with
            | some id => lookupIntStr PM_ENUM_ID_TO_SLACK id
            | none => none
          match pmSlackId with
          | some _ =>
            { joinCalls := 1, infoCalls := 1, inviteCalls := inv + 1, dealFetches := 1,
              channelMessages := [pmInvitedMessage pm.pmName] }
          | none =>
            { joinCalls := 1, infoCalls := 1, inviteCalls := inv, dealFetches := 1,
              channelMessages := [pmNotInvitedMessage dealId pm.pmName pm.pmFieldKeyUsed] }

/- ===== Variant A join flow (src/index.js lines 104-237) ===== -/

def RECON_PM_ENUM_TO_SLACK : List (Int × String) :=
  [(62, "U05G8MQ54JD"), (63, "U05FPCPHJG6")]

/-- JS Number() on the value shapes a Pipedrive enum field carries; `none`
stands for NaN. -/
def jsNumberAtom : PDValue → Option Int
  | PDValue.vnum n => some n
  | PDValue.vstr s =>
    if s = "" then some 0
    else if isAllDigits s then some ((jsNumberOfDigits s : Nat) : Int) else none
  | PDValue.vobj _ _ => none
  | PDValue.vnull => some 0

/-- pmEnumId of variant A:
`(pmVal && typeof pmVal === "object" && pmVal.value != null) ?
   Number(pmVal.value) : (pmVal != null ? Number(pmVal) : null)`. -/
def pmEnumIdA (pmVal : Option PDValue) : Option Int :=
  match pmVal with
  | some (PDValue.vobj (some PDValue.vnull) _) => none
  | some (PDValue.vobj (some v) _) => jsNumberAtom v
  | some (PDValue.vobj none _) => none
  | some PDValue.vnull => none
  | some v => jsNumberAtom v
  | none => none

/-- `if (pmEnumId && RECON_PM_ENUM_TO_SLACK[pmEnumId])`: a truthy enum id
that is mapped. -/
def pmSlackA (pmVal : Option PDValue) : Option String :=
  match pmEnumIdA pmVal with
  | some i => if i = 0 then none else lookupIntStr RECON_PM_ENUM_TO_SLACK i
  | none => none

/-- External-call results for one variant A startReconChannel run; the deal
object is read only at the Project Manager field key, so the environment
supplies that field value (or the thrown fetch). -/
structure StartReconEnv where
  pmFieldVal : Except String (Option PDValue)
  permalinkRes : Option String

structure StartReconEffects where
  joinCalls : Nat
  inviteCalls : Nat
  pdDealFetches : Nat
  pdDealUpdates : Nat
  channelMessages : List String
deriving DecidableEq

def reconStartedMessage (dealId : String) (pmSlack : Option String) : String :=
  "🧱 *Recon started*\n• Deal: *" ++ dealId ++
  "*\n• Baseline: <@U09PUG47MAM> <@U05G8MQ54JD> <@U086RE5K3LY>\n• " ++
  (match pmSlack with
   | some s => "PM invited: <@" ++ s ++ ">"
   | none => "PM invite: (not set / not mapped yet)") ++
  "\n• Channel format: `rcn-<name>-deal" ++ dealId ++ "`"

/-- Variant A startReconChannel (src/index.js lines 171-237).  On a missing
deal id it posts a channel-visible warning and stops; otherwise it joins,
invites the baseline users (one invite call, optionally one more for a
mapped PM), fetches the deal, posts the initialization message, writes the
permalink back to Pipedrive when one was obtained, and posts the summary
message.  chat.postMessage calls are modelled as succeeding; their failure
paths are caught and logged only. -/
def startReconChannel (env : StartReconEnv) (channelName : String) : StartReconEffects :=
  match extractDealIdFromChannelNameA channelName with
  | none =>
    { joinCalls := 0, inviteCalls := 0, pdDealFetches := 0, pdDealUpdates := 0,
      channelMessages :=
        ["⚠️ Recon channel name must include `deal###` (example: `rcn-smith-deal603`)."] }
  | some dealId =>
    let pmSlack : Option String :=
      match env.pmFieldVal with
      | Except.error _ => none
      | Except.ok pv => pmSlackA pv
    let updates : Nat :=
      match env.permalinkRes with
      | some p => if p = "" then 0 else 1
      | none => 0
    { joinCalls := 1
      inviteCalls := 1 + (if pmSlack.isSome then 1 else 0)
      pdDealFetches := 1
      pdDealUpdates := updates
      channelMessages :=
        ["✅ Recon channel initialized for deal *" ++ dealId ++ "*.",
         reconStartedMessage dealId pmSlack] }

/- ===== helper lemmas ===== -/

theorem leadingMatch_iff (pat : List Char) (l : List Char) :
    leadingMatch pat l = true ↔ ∃ t, l = pat ++ t := by
  induction pat generalizing l with
  | nil => simp [leadingMatch]
  | cons p ps ih =>
    cases l with
    | nil => simp [leadingMatch]
    | cons c cs =>
      by_cases hpc : p = c
      · subst hpc
        simp [leadingMatch, ih]
      · constructor
        · intro h
          rw [leadingMatch] at h
          simp [hpc] at h
        · rintro ⟨t, ht⟩
          exfalso
          have h2 : c = p ∧ cs = ps ++ t := by simpa using ht
          exact hpc h2.1.symm

theorem containsSeq_iff (pat : List Char) (l : List Char) :
    containsSeq pat l = true ↔ ∃ s t, l = s ++ pat ++ t := by
  induction l with
  | nil =>
    rw [show containsSeq pat [] = leadingMatch pat [] from rfl, leadingMatch_iff]
    constructor
    · rintro ⟨t, ht⟩
      exact ⟨[], t, by simpa using ht⟩
    · rintro ⟨s, t, ht⟩
      have h3 : s = [] ∧ pat = [] ∧ t = [] := by simpa using ht.symm
      exact ⟨t, by simp [h3.2.1, h3.2.2]⟩
  | cons c cs ih =>
    simp only [containsSeq, Bool.or_eq_true, leadingMatch_iff, ih]
    constructor
    · rintro (⟨t, ht⟩ | ⟨s, t, ht⟩)
      · exact ⟨[], t, by simpa using ht⟩
      · exact ⟨c :: s, t, by simp [ht]⟩
    · rintro ⟨s, t, ht⟩
      cases s with
      | nil => exact Or.inl ⟨t, by simpa using ht⟩
      | cons a s =>
        have h : c = a ∧ cs = s ++ pat ++ t := by simpa using ht
        exact Or.inr ⟨s, t, h.2⟩

theorem dealDigitsAt_eq (cs : List Char) (ds : List Char)
    (h : dealDigitsAt cs = some ds) :
    ds = (cs.drop 4).takeWhile (fun c => c.isDigit) ∧ ds ≠ [] := by
  unfold dealDigitsAt at h
  split at h
  · rename_i c1 c2 c3 c4 rest
    split at h
    · split at h
      · exact absurd h (by simp)
      · rename_i hne
        have hds := Option.some.inj h
        constructor
        · exact hds.symm
        · intro hnil
          rw [← hds] at hnil
          simp [hnil] at hne
    · exact absurd h (by simp)
  · exact absurd h (by simp)

theorem scanDealDigits_none (cs : List Char)
    (h : ∀ i, i < cs.length → dealMatchAt cs i = false) :
    scanDealDigits cs = none := by
  induction cs with
  | nil => rfl
  | cons c cs ih =>
    have h0 : dealDigitsAt (c :: cs) = none := by
      cases hEq : dealDigitsAt (c :: cs) with
      | none => rfl
      | some ds =>
        have hc := h 0 (Nat.succ_pos _)
        rw [dealMatchAt] at hc
        simp [hEq] at hc
    have ih' := ih (fun i hi => by
      have hc := h (i + 1) (by simpa using Nat.succ_lt_succ hi)
      rw [dealMatchAt, List.drop_succ_cons] at hc
      exact hc)
    simp only [scanDealDigits, h0, ih']

theorem scanDealDigits_first (i : Nat) (cs : List Char)
    (hm : dealMatchAt cs i = true)
    (hmin : ∀ j, j < i → dealMatchAt cs j = false) :
    scanDealDigits cs = some ((cs.drop (i + 4)).takeWhile (fun c => c.isDigit)) := by
  induction i generalizing cs with
  | zero =>
    cases hEq : dealDigitsAt cs with
    | none =>
      rw [dealMatchAt] at hm
      simp [hEq] at hm
    | some ds =>
      obtain ⟨hds, -⟩ := dealDigitsAt_eq cs ds hEq
      cases cs with
      | nil => simp [dealDigitsAt] at hEq
      | cons c cs =>
        simp only [scanDealDigits, hEq]
        rw [hds]
  | succ i ih =>
    have h0 : dealDigitsAt cs = none := by
      cases hEq : dealDigitsAt cs with
      | none => rfl
      | some ds =>
        have hc := hmin 0 (Nat.succ_pos _)
        rw [dealMatchAt] at hc
        simp [hEq] at hc
    cases cs with
    | nil =>
      rw [dealMatchAt] at hm
      simp [dealDigitsAt] at hm
    | cons c cs =>
      have hm' : dealMatchAt cs i = true := by
        rw [dealMatchAt] at hm ⊢
        rwa [List.drop_succ_cons] at hm
      have hmin' : ∀ j, j < i → dealMatchAt cs j = false := fun j hj => by
        have hc := hmin (j + 1) (Nat.succ_lt_succ hj)
        rw [dealMatchAt, List.drop_succ_cons] at hc
        exact hc
      have hdrop : (c :: cs).drop (i + 1 + 4) = cs.drop (i + 4) := by
        have h45 : i + 1 + 4 = (i + 4) + 1 := by omega
        rw [h45, List.drop_succ_cons]
      simp only [scanDealDigits, h0, ih cs hm' hmin', hdrop]

/- ===== C3 ===== -/

/-- C3 counterexample: variant A of extractDealIdFromChannelName (the one
with the `\b` word boundary, src/index.js lines 97-101) violates the claim.
The name "deal12abc" contains the literal "deal" immediately followed by the
digit run "12" (dealMatchAt index 0), so the claim demands the result
"12"; variant A returns null because the digit run is followed by a word
character, which fails the `\b` boundary. -/
theorem extractDealIdA_word_boundary_cx :
    dealMatchAt "deal12abc".data 0 = true
    ∧ extractDealIdFromChannelNameA "deal12abc" = none := by
  constructor
  · decide
  · decide

/-- C3 (amended): variant B of extractDealIdFromChannelName (the reaction
pipeline classifier, src/index.js lines 434-437) satisfies the claim as
stated: whenever the name has no occurrence of "deal" (any case)
immediately followed by a digit it returns none, and whenever index `i` is
the first such occurrence it returns exactly the digit run that follows it,
as a string. -/
theorem extractDealIdFromChannelName_spec (name : String) :
    ((∀ i, i < name.data.length → dealMatchAt name.data i = false) →
      extractDealIdFromChannelName name = none)
    ∧ (∀ i, dealMatchAt name.data i = true →
        (∀ j, j < i → dealMatchAt name.data j = false) →
        extractDealIdFromChannelName name =
          some (String.mk ((name.data.drop (i + 4)).takeWhile (fun c => c.isDigit)))) := by
  constructor
  · intro h
    rw [extractDealIdFromChannelName, scanDealDigits_none name.data h]
    rfl
  · intro i hm hmin
    rw [extractDealIdFromChannelName, scanDealDigits_first i name.data hm hmin]
    rfl

/-- C3 witness: the two examples of the claim, derived from the theorem at
"rcn-smith-deal603" (first match at index 10, digits "603") and "general"
(no match anywhere). -/
theorem extractDealIdFromChannelName_spec_witness :
    extractDealIdFromChannelName "rcn-smith-deal603" = some "603"
    ∧ extractDealIdFromChannelName "general" = none := by
  constructor
  · have h := (extractDealIdFromChannelName_spec "rcn-smith-deal603").2 10
      (by decide) (by decide)
    rw [h]
    decide
  · exact (extractDealIdFromChannelName_spec "general").1 (by decide)

/- ===== C8 ===== -/

/-- C8 counterexample: variant A of isReconChannelName (src/index.js lines
93-95) violates the claim: "team-rcn-42" contains the substring "rcn" (it
even satisfies the variant B classifier), yet variant A returns false,
because it tests `startsWith("rcn-")` instead of a substring match, and it
reads no configuration at all. -/
theorem isReconChannelNameA_cx :
    isReconChannelName "team-rcn-42" = true
    ∧ isReconChannelNameA "team-rcn-42" = false := by
  constructor
  · decide
  · decide

/-- C8 (amended): under the default configuration, variant B
isReconChannelName returns true exactly when the channel name contains
"rcn" anywhere, case-insensitively (stated as: the lowercased character
list decomposes around the literal ['r','c','n']); variant A instead
returns true exactly when the lowercased name starts with "rcn-". -/
theorem isReconChannelName_default_spec (name : String) :
    (isReconChannelName name = true ↔
      ∃ s t, name.data.map Char.toLower = s ++ ['r', 'c', 'n'] ++ t)
    ∧ (isReconChannelNameA name = true ↔
      ∃ t, name.data.map Char.toLower = ['r', 'c', 'n', '-'] ++ t) := by
  constructor
  · exact containsSeq_iff RECON_CHANNEL_PATTERN (name.data.map Char.toLower)
  · exact leadingMatch_iff ['r', 'c', 'n', '-'] (name.data.map Char.toLower)

/-- C8 witness: the theorem applied at "Team-RCN-42", whose lowercasing
splits as "team-" ++ "rcn" ++ "-42". -/
theorem isReconChannelName_default_spec_witness :
    isReconChannelName "Team-RCN-42" = true :=
  (isReconChannelName_default_spec "Team-RCN-42").1.mpr
    ⟨['t', 'e', 'a', 'm', '-'], ['-', '4', '2'], by decide⟩

/- ===== C4 ===== -/

theorem strData_append (s t : String) : (s ++ t).data = s.data ++ t.data := rfl

/-- C4 counterexample: buildNoteFromSlack performs none of the claimed
transformations.  With a raw text containing the three HTML entities, a run
of four newlines and trailing spaces before a newline, the output does not
contain the decoded "&test<>", still contains the raw
"&amp;test&lt;&gt;", still contains the four-newline run (the claim
demands at most two), and still contains trailing spaces before a
newline. -/
theorem buildNoteFromSlack_no_decode_cx :
    containsSeq "&test<>".data
      (buildNoteFromSlack "rcn-a-deal1" "R" "A" none "&amp;test&lt;&gt;\n\n\n\nline  \nend" []).data = false
    ∧ containsSeq "&amp;test&lt;&gt;".data
      (buildNoteFromSlack "rcn-a-deal1" "R" "A" none "&amp;test&lt;&gt;\n\n\n\nline  \nend" []).data = true
    ∧ containsSeq "\n\n\n\n".data
      (buildNoteFromSlack "rcn-a-deal1" "R" "A" none "&amp;test&lt;&gt;\n\n\n\nline  \nend" []).data = true
    ∧ containsSeq "  \n".data
      (buildNoteFromSlack "rcn-a-deal1" "R" "A" none "&amp;test&lt;&gt;\n\n\n\nline  \nend" []).data = true := by
  refine ⟨?_, ?_, ?_, ?_⟩ <;> decide

/-- C4 (amended): buildNoteFromSlack applies no normalization at all to the
message body: a nonempty rawText is embedded verbatim (entities, newline
runs and trailing whitespace included) as a contiguous substring of the
output, and an empty rawText renders as the literal "(no text)". -/
theorem buildNoteFromSlack_verbatim (cn rn an : String) (pl : Option String)
    (text : String) (att : List String) :
    (text ≠ "" →
      containsSeq text.data (buildNoteFromSlack cn rn an pl text att).data = true)
    ∧ (text = "" →
      containsSeq "(no text)".data (buildNoteFromSlack cn rn an pl text att).data = true) := by
  constructor
  · intro h
    rw [containsSeq_iff]
    refine ⟨("Slack note from #" ++ cn ++ "\nAuthor: " ++ an ++ "\nApproved by: " ++ rn
        ++ "\n\nMessage:\n").data,
      (filesLineOf att ++ linkLineOf pl).data, ?_⟩
    simp [buildNoteFromSlack, strData_append, h, List.append_assoc]
  · intro h
    subst h
    rw [containsSeq_iff]
    refine ⟨("Slack note from #" ++ cn ++ "\nAuthor: " ++ an ++ "\nApproved by: " ++ rn
        ++ "\n\nMessage:\n").data,
      (filesLineOf att ++ linkLineOf pl).data, ?_⟩
    simp [buildNoteFromSlack, strData_append, List.append_assoc]

/-- C4 witness: the theorem applied to a concrete raw text with an entity,
a newline run and trailing spaces, which the output keeps verbatim. -/
theorem buildNoteFromSlack_verbatim_witness :
    containsSeq "&amp;hi  \n\n\n\nbye".data
      (buildNoteFromSlack "c" "r" "a" none "&amp;hi  \n\n\n\nbye" []).data = true :=
  (buildNoteFromSlack_verbatim "c" "r" "a" none "&amp;hi  \n\n\n\nbye" []).1 (by decide)

/- ===== C7 ===== -/

def userRealName (info : Option SlackUser) : Option String :=
  info.bind (fun u => u.real_name)

def userDisplayName (info : Option SlackUser) : Option String :=
  info.bind (fun u => u.display_name)

/-- JS falsiness of an optional string: absent or empty. -/
def isFalsyOpt : Option String → Bool
  | none => true
  | some s => s == ""

theorem jsOrStr_falsy (o : Option String) (fb : String)
    (h : isFalsyOpt o = true) : jsOrStr o fb = fb := by
  cases o with
  | none => rfl
  | some s =>
    have hs : s = "" := by simpa [isFalsyOpt] using h
    simp [jsOrStr, hs]

theorem jsOrStr_truthy (s : String) (fb : String) (h : s ≠ "") :
    jsOrStr (some s) fb = s := by
  simp [jsOrStr, h]

/-- C7 counterexample: the claimed precedence starts with the normalized
real name and ends with handle then "User &lt;id&gt;".  For a profile that
has a normalized real name and a handle but no real_name and no
display_name, the code resolves the mention literal, not "Norma Smith"
(normalized, claimed first), not "norma.h" (handle), and not "User U1"
(claimed synthetic): it never reads those fields (src/index.js lines
808-816). -/
theorem resolveReactorName_normalized_cx :
    resolveReactorName
      (some { real_name := none, real_name_normalized := some "Norma Smith",
              display_name := none, name := some "norma.h" }) "U1" = "<@U1>" := by
  decide

/-- C7 (amended): the resolved display name follows the precedence
real_name, then profile display_name (JS-falsy values skipped), then the
mention literal "&lt;@id&gt;" for the reactor; for the author the final
fallback is the mention when the message has an author id and the literal
"unknown" otherwise.  Normalized real name and handle are never consulted
and no "User &lt;id&gt;" literal is produced. -/
theorem resolveName_precedence (info : Option SlackUser) (uid : String) (mu : Option String) :
    (∀ r, userRealName info = some r → r ≠ "" → resolveReactorName info uid = r)
    ∧ (isFalsyOpt (userRealName info) = true →
        ∀ d, userDisplayName info = some d → d ≠ "" → resolveReactorName info uid = d)
    ∧ (isFalsyOpt (userRealName info) = true → isFalsyOpt (userDisplayName info) = true →
        resolveReactorName info uid = "<@" ++ uid ++ ">")
    ∧ (isFalsyOpt (userRealName info) = true → isFalsyOpt (userDisplayName info) = true →
        resolveAuthorName info mu =
          (match mu with
           | some u => "<@" ++ u ++ ">"
           | none => "unknown")) := by
  refine ⟨?_, ?_, ?_, ?_⟩
  · intro r hr hne
    rw [resolveReactorName, show info.bind (fun u => u.real_name) = some r from hr]
    exact jsOrStr_truthy r _ hne
  · intro hf d hd hne
    rw [resolveReactorName,
      jsOrStr_falsy (info.bind (fun u => u.real_name)) _ hf,
      show info.bind (fun u => u.display_name) = some d from hd]
    exact jsOrStr_truthy d _ hne
  · intro hf1 hf2
    rw [resolveReactorName,
      jsOrStr_falsy (info.bind (fun u => u.real_name)) _ hf1,
      jsOrStr_falsy (info.bind (fun u => u.display_name)) _ hf2]
  · intro hf1 hf2
    unfold resolveAuthorName
    rw [jsOrStr_falsy (info.bind (fun u => u.real_name)) _ hf1,
      jsOrStr_falsy (info.bind (fun u => u.display_name)) _ hf2]

/- ===== pipeline run lemmas ===== -/

theorem recentlyNoted_stale (store : DedupeStore) (key : String) (t t' : Nat)
    (h : recentlyNoted store key t = false) (hle : t ≤ t') :
    recentlyNoted store key t' = false := by
  unfold recentlyNoted at h ⊢
  cases hm : mapGet store key with
  | none => rfl
  | some v =>
    rw [hm] at h
    by_cases hv : v = 0
    · simp [hv]
    · by_cases hb : (t' : Int) - (v : Int) < PD_NOTE_DEDUPE_MS
      · exfalso
        have hc : (t : Int) ≤ (t' : Int) := by exact_mod_cast hle
        have hb0 : (t : Int) - (v : Int) < PD_NOTE_DEDUPE_MS := by omega
        simp [hv, hb0] at h
      · simp [hb]

/-- A run that passes every filter, resolves the channel name `nm`,
extracts deal id `d` and fetches message `m` performs exactly the submit
stage, branching only on the CRM response. -/
theorem handleReactionAdded_submit
    (cfg : Config) (env : Env) (ev : ReactionEvent) (store : DedupeStore) (now : Nat)
    (ch ts nm d : String) (m : Msg)
    (hen : cfg.enableReactionToPdNote = true)
    (hch : ev.channel = some ch) (hch0 : ch ≠ "")
    (hts : ev.ts = some ts) (hts0 : ts ≠ "")
    (hre : PD_NOTE_REACTIONS.contains ev.reaction = true)
    (hdd : recentlyNoted store (ch ++ ":" ++ ts) now = false)
    (hinfo : env.infoRes = Except.ok nm)
    (hdeal : extractDealIdFromChannelName nm = some d)
    (hhist : env.histRes = Except.ok (some m)) :
    handleReactionAdded cfg env ev store now =
      match env.noteRes with
      | Except.error diag =>
        (store, { submitBaseEffects cfg env ev nm d m with
                  threadReplies := [pdApiErrorReply d (diag.take 800)] })
      | Except.ok true =>
        (mapSet store (ch ++ ":" ++ ts) now,
         { submitBaseEffects cfg env ev nm d m with
           reactionAddCalls := 1
           threadReplies := [successReply d] })
      | Except.ok false =>
        (store, { submitBaseEffects cfg env ev nm d m with
                  threadReplies := [unknownResponseReply] }) := by
  have hre' : ev.reaction ∈ PD_NOTE_REACTIONS := by simpa using hre
  unfold handleReactionAdded
  rw [hch, hts]
  simp [hen, hre', hch0, hts0, hdd, hinfo, hdeal, hhist]

/-- C7 witness: the theorem applied to a profile with a nonempty real name
(first conjunct) and to an absent lookup with an authorless message
(fourth conjunct). -/
theorem resolveName_precedence_witness :
    resolveReactorName
      (some { real_name := some "Real Name", real_name_normalized := none,
              display_name := some "disp", name := some "handle" }) "U2" = "Real Name"
    ∧ resolveAuthorName none none = "unknown" := by
  constructor
  · exact (resolveName_precedence _ "U2" none).1 "Real Name" rfl (by decide)
  · exact (resolveName_precedence none "x" none).2.2.2 (by decide) (by decide)

/- ===== C1 ===== -/

/-- C1: idempotence through the dedupe store.  A run that passes the
filters and ends in a successful CRM note submission marks the key; a
second trigger of the same (channel, timestamp) at any later clock value
within the 5-minute window (and any environment) observes the dedupe hit,
performs no external call of any kind and changes nothing, so exactly one
CRM note submission happens in total.  The hypothesis 0 < t1 reflects that
Date.now() is positive (a stored clock value 0 is JS-falsy in
recentlyNoted and would behave like a missing entry). -/
theorem reaction_pipeline_idempotent
    (cfg : Config) (env1 env2 : Env) (ev : ReactionEvent) (store0 : DedupeStore)
    (t1 t2 : Nat) (ch ts nm d : String) (m : Msg)
    (hen : cfg.enableReactionToPdNote = true)
    (hch : ev.channel = some ch) (hch0 : ch ≠ "")
    (hts : ev.ts = some ts) (hts0 : ts ≠ "")
    (hre : PD_NOTE_REACTIONS.contains ev.reaction = true)
    (hdd : recentlyNoted store0 (ch ++ ":" ++ ts) t1 = false)
    (hinfo : env1.infoRes = Except.ok nm)
    (hdeal : extractDealIdFromChannelName nm = some d)
    (hhist : env1.histRes = Except.ok (some m))
    (hnote : env1.noteRes = Except.ok true)
    (ht1 : 0 < t1) (_hle : t1 ≤ t2) (hwin : t2 - t1 < 300000) :
    (handleReactionAdded cfg env1 ev store0 t1).2.pdNoteCalls.length = 1
    ∧ recentlyNoted (handleReactionAdded cfg env1 ev store0 t1).1 (ch ++ ":" ++ ts) t2 = true
    ∧ handleReactionAdded cfg env2 ev (handleReactionAdded cfg env1 ev store0 t1).1 t2
        = ((handleReactionAdded cfg env1 ev store0 t1).1, noEffects)
    ∧ (handleReactionAdded cfg env1 ev store0 t1).2.pdNoteCalls.length
        + (handleReactionAdded cfg env2 ev
            (handleReactionAdded cfg env1 ev store0 t1).1 t2).2.pdNoteCalls.length = 1 := by
  have h1 := handleReactionAdded_submit cfg env1 ev store0 t1 ch ts nm d m
    hen hch hch0 hts hts0 hre hdd hinfo hdeal hhist
  rw [hnote] at h1
  have hnoted : recentlyNoted (mapSet store0 (ch ++ ":" ++ ts) t1) (ch ++ ":" ++ ts) t2 = true := by
    unfold recentlyNoted mapSet mapGet
    have h45 : (t2 : Int) - (t1 : Int) < PD_NOTE_DEDUPE_MS := by
      unfold PD_NOTE_DEDUPE_MS
      omega
    simp [Nat.pos_iff_ne_zero.mp ht1, h45]
  have hre' : ev.reaction ∈ PD_NOTE_REACTIONS := by simpa using hre
  have h2 : handleReactionAdded cfg env2 ev (mapSet store0 (ch ++ ":" ++ ts) t1) t2
      = (mapSet store0 (ch ++ ":" ++ ts) t1, noEffects) := by
    unfold handleReactionAdded
    rw [hch, hts]
    simp [hen, hre', hch0, hts0, hnoted]
  refine ⟨?_, ?_, ?_, ?_⟩
  · rw [h1]
    rfl
  · rw [h1]
    exact hnoted
  · rw [h1]
    exact h2
  · rw [h1]
    simp [h2]
    rfl

/-- C1 witness: a fully concrete double trigger.  The first run at clock
1000 submits one note, the second at clock 2000 is inside the window, sees
the dedupe hit and does nothing. -/
theorem reaction_pipeline_idempotent_witness :
    (handleReactionAdded { enableReactionToPdNote := true, reactionUploadFiles := false }
      { infoRes := Except.ok "rcn-acme-deal42", histRes := Except.ok (some { user := some "UA", text := some "Approved, go ahead", files := none }),
        authorRes := none, reactorRes := none, permalinkRes := none,
        fileDownloadOk := fun _ => false, noteRes := Except.ok true }
      { reaction := "white_check_mark", user := "UB", channel := some "C1", ts := some "111.22" }
      [] 1000).2.pdNoteCalls.length = 1
    ∧ recentlyNoted (handleReactionAdded { enableReactionToPdNote := true, reactionUploadFiles := false }
      { infoRes := Except.ok "rcn-acme-deal42", histRes := Except.ok (some { user := some "UA", text := some "Approved, go ahead", files := none }),
        authorRes := none, reactorRes := none, permalinkRes := none,
        fileDownloadOk := fun _ => false, noteRes := Except.ok true }
      { reaction := "white_check_mark", user := "UB", channel := some "C1", ts := some "111.22" }
      [] 1000).1 ("C1" ++ ":" ++ "111.22") 2000 = true := by
  have h := reaction_pipeline_idempotent
    { enableReactionToPdNote := true, reactionUploadFiles := false }
    { infoRes := Except.ok "rcn-acme-deal42", histRes := Except.ok (some { user := some "UA", text := some "Approved, go ahead", files := none }),
      authorRes := none, reactorRes := none, permalinkRes := none,
      fileDownloadOk := fun _ => false, noteRes := Except.ok true }
    { infoRes := Except.error "err", histRes := Except.error "err",
      authorRes := none, reactorRes := none, permalinkRes := none,
      fileDownloadOk := fun _ => false, noteRes := Except.ok false }
    { reaction := "white_check_mark", user := "UB", channel := some "C1", ts := some "111.22" }
    [] 1000 2000 "C1" "111.22" "rcn-acme-deal42" "42"
    { user := some "UA", text := some "Approved, go ahead", files := none }
    rfl rfl (by decide) rfl (by decide) (by decide) (by decide) rfl (by decide) rfl rfl
    (by decide) (by decide) (by decide)
  exact ⟨h.1, h.2.1⟩

/- ===== C2 ===== -/

/-- C2: atomicity on submission failure.  When the CRM note call throws or
returns a non-success payload, the run posts exactly one thread reply (the
truncated diagnostic one in the thrown case), performs exactly one CRM
call (no retry), adds no confirmation reaction, and leaves the dedupe
store unchanged, so the key stays unmarked and any later re-trigger passes
the dedupe check again. -/
theorem submit_failure_atomic
    (cfg : Config) (env : Env) (ev : ReactionEvent) (store : DedupeStore) (now : Nat)
    (ch ts nm d : String) (m : Msg)
    (hen : cfg.enableReactionToPdNote = true)
    (hch : ev.channel = some ch) (hch0 : ch ≠ "")
    (hts : ev.ts = some ts) (hts0 : ts ≠ "")
    (hre : PD_NOTE_REACTIONS.contains ev.reaction = true)
    (hdd : recentlyNoted store (ch ++ ":" ++ ts) now = false)
    (hinfo : env.infoRes = Except.ok nm)
    (hdeal : extractDealIdFromChannelName nm = some d)
    (hhist : env.histRes = Except.ok (some m))
    (hfail : (∃ diag, env.noteRes = Except.error diag) ∨ env.noteRes = Except.ok false) :
    (handleReactionAdded cfg env ev store now).1 = store
    ∧ (handleReactionAdded cfg env ev store now).2.threadReplies.length = 1
    ∧ (handleReactionAdded cfg env ev store now).2.pdNoteCalls.length = 1
    ∧ (handleReactionAdded cfg env ev store now).2.reactionAddCalls = 0
    ∧ (∀ diag, env.noteRes = Except.error diag →
        (handleReactionAdded cfg env ev store now).2.threadReplies
          = [pdApiErrorReply d (diag.take 800)])
    ∧ (∀ t2, now ≤ t2 →
        recentlyNoted (handleReactionAdded cfg env ev store now).1 (ch ++ ":" ++ ts) t2 = false) := by
  have h1 := handleReactionAdded_submit cfg env ev store now ch ts nm d m
    hen hch hch0 hts hts0 hre hdd hinfo hdeal hhist
  rcases hfail with ⟨diag, hd⟩ | hd
  · rw [hd] at h1
    refine ⟨by rw [h1], by rw [h1]; rfl, by rw [h1]; rfl, by rw [h1]; rfl, ?_, ?_⟩
    · intro diag2 hd2
      rw [hd] at hd2
      have hdiag : diag = diag2 := Except.error.inj hd2
      rw [h1, ← hdiag]
    · intro t2 hle
      rw [h1]
      exact recentlyNoted_stale store (ch ++ ":" ++ ts) now t2 hdd hle
  · rw [hd] at h1
    refine ⟨by rw [h1], by rw [h1]; rfl, by rw [h1]; rfl, by rw [h1]; rfl, ?_, ?_⟩
    · intro diag2 hd2
      rw [hd] at hd2
      exact absurd hd2 (by simp)
    · intro t2 hle
      rw [h1]
      exact recentlyNoted_stale store (ch ++ ":" ++ ts) now t2 hdd hle

/-- C2 witness: a concrete run whose CRM call returns a non-success
payload; the store is unchanged and a later check at clock 9000 still
passes. -/
theorem submit_failure_atomic_witness :
    (handleReactionAdded { enableReactionToPdNote := true, reactionUploadFiles := false }
      { infoRes := Except.ok "rcn-acme-deal42", histRes := Except.ok (some { user := some "UA", text := some "hi", files := none }),
        authorRes := none, reactorRes := none, permalinkRes := none,
        fileDownloadOk := fun _ => false, noteRes := Except.ok false }
      { reaction := "white_check_mark", user := "UB", channel := some "C1", ts := some "111.22" }
      [] 1000).1 = []
    ∧ recentlyNoted (handleReactionAdded { enableReactionToPdNote := true, reactionUploadFiles := false }
      { infoRes := Except.ok "rcn-acme-deal42", histRes := Except.ok (some { user := some "UA", text := some "hi", files := none }),
        authorRes := none, reactorRes := none, permalinkRes := none,
        fileDownloadOk := fun _ => false, noteRes := Except.ok false }
      { reaction := "white_check_mark", user := "UB", channel := some "C1", ts := some "111.22" }
      [] 1000).1 ("C1" ++ ":" ++ "111.22") 9000 = false := by
  have h := submit_failure_atomic
    { enableReactionToPdNote := true, reactionUploadFiles := false }
    { infoRes := Except.ok "rcn-acme-deal42", histRes := Except.ok (some { user := some "UA", text := some "hi", files := none }),
      authorRes := none, reactorRes := none, permalinkRes := none,
      fileDownloadOk := fun _ => false, noteRes := Except.ok false }
    { reaction := "white_check_mark", user := "UB", channel := some "C1", ts := some "111.22" }
    [] 1000 "C1" "111.22" "rcn-acme-deal42" "42"
    { user := some "UA", text := some "hi", files := none }
    rfl rfl (by decide) rfl (by decide) (by decide) (by decide) rfl (by decide) rfl
    (Or.inr rfl)
  exact ⟨h.1, h.2.2.2.2.2 9000 (by decide)⟩

/- ===== C5 ===== -/

/-- C5: the filter has no side effects.  When the feature is disabled,
when the event lacks a channel or timestamp (absent or empty), or when the
reaction name is outside the accepted set, the handler performs no CRM
call, posts no reply, makes no chat-platform lookup and leaves the dedupe
store unchanged; and the accepted set is exactly the three default
names. -/
theorem reaction_filter_no_effects
    (cfg : Config) (env : Env) (ev : ReactionEvent) (store : DedupeStore) (now : Nat)
    (h : cfg.enableReactionToPdNote = false ∨ ev.channel = none ∨ ev.ts = none
        ∨ ev.channel = some "" ∨ ev.ts = some ""
        ∨ PD_NOTE_REACTIONS.contains ev.reaction = false) :
    handleReactionAdded cfg env ev store now = (store, noEffects)
    ∧ PD_NOTE_REACTIONS = ["white_check_mark", "heavy_check_mark", "ballot_box_with_check"] := by
  refine ⟨?_, rfl⟩
  unfold handleReactionAdded
  by_cases hen : cfg.enableReactionToPdNote = false
  · simp [hen]
  · cases hc : ev.channel with
    | none => simp [hen, hc]
    | some c =>
      cases ht : ev.ts with
      | none => simp [hen, hc, ht]
      | some t =>
        rcases h with h | h | h | h | h | h
        · exact absurd h hen
        · rw [hc] at h
          exact absurd h (by simp)
        · rw [ht] at h
          exact absurd h (by simp)
        · rw [hc] at h
          have hc0 : c = "" := Option.some.inj h
          simp [hen, hc, ht, hc0]
        · rw [ht] at h
          have ht0 : t = "" := Option.some.inj h
          simp [hen, hc, ht, ht0]
        · have h' : ev.reaction ∉ PD_NOTE_REACTIONS := by
            intro hmem
            have h'' : PD_NOTE_REACTIONS.contains ev.reaction = true := by simpa using hmem
            rw [h] at h''
            exact Bool.noConfusion h''
          by_cases hct : c = "" ∨ t = ""
          · simp [hen, hc, ht, hct]
          · simp [hen, hc, ht, hct, h']

/-- C5 witness: a thumbsup reaction (outside the accepted set) on an
otherwise fully valid event produces no effect at all. -/
theorem reaction_filter_no_effects_witness :
    handleReactionAdded { enableReactionToPdNote := true, reactionUploadFiles := false }
      { infoRes := Except.ok "rcn-acme-deal42", histRes := Except.ok none,
        authorRes := none, reactorRes := none, permalinkRes := none,
        fileDownloadOk := fun _ => false, noteRes := Except.ok true }
      { reaction := "thumbsup", user := "UB", channel := some "C1", ts := some "111.22" }
      [("k", 5)] 1000 = ([("k", 5)], noEffects) :=
  (reaction_filter_no_effects
    { enableReactionToPdNote := true, reactionUploadFiles := false }
    { infoRes := Except.ok "rcn-acme-deal42", histRes := Except.ok none,
      authorRes := none, reactorRes := none, permalinkRes := none,
      fileDownloadOk := fun _ => false, noteRes := Except.ok true }
    { reaction := "thumbsup", user := "UB", channel := some "C1", ts := some "111.22" }
    [("k", 5)] 1000
    (Or.inr (Or.inr (Or.inr (Or.inr (Or.inr (by decide))))))).1

/- ===== C6 ===== -/

/-- C6: best-effort parallel identity resolution.  The lemma holds for
every combination of author lookup, reactor lookup and permalink results
(`env.authorRes`, `env.reactorRes`, `env.permalinkRes` are unconstrained,
`none` being a failed, caught lookup): the run still formats the note from
the individually resolved values and issues exactly one CRM note call and
one thread reply; a failed author or reactor lookup falls back to the
mention literal and a failed permalink fetch contributes an empty link
line.  Exceptions cannot propagate: each lookup result enters only through
its own total fallback resolver. -/
theorem identity_resolution_best_effort
    (cfg : Config) (env : Env) (ev : ReactionEvent) (store : DedupeStore) (now : Nat)
    (ch ts nm d : String) (m : Msg)
    (hen : cfg.enableReactionToPdNote = true)
    (hch : ev.channel = some ch) (hch0 : ch ≠ "")
    (hts : ev.ts = some ts) (hts0 : ts ≠ "")
    (hre : PD_NOTE_REACTIONS.contains ev.reaction = true)
    (hdd : recentlyNoted store (ch ++ ":" ++ ts) now = false)
    (hinfo : env.infoRes = Except.ok nm)
    (hdeal : extractDealIdFromChannelName nm = some d)
    (hhist : env.histRes = Except.ok (some m)) :
    (handleReactionAdded cfg env ev store now).2.pdNoteCalls =
      [(jsNumberOfDigits d,
        buildNoteFromSlack nm
          (resolveReactorName env.reactorRes ev.user)
          (resolveAuthorName (if m.user.isSome then env.authorRes else none) m.user)
          env.permalinkRes (m.text.getD "")
          ((m.files.getD []).map (fun f => f.name ++ " (" ++ f.filetype ++ ")")))]
    ∧ (handleReactionAdded cfg env ev store now).2.threadReplies.length = 1
    ∧ (∀ u, resolveAuthorName none (some u) = "<@" ++ u ++ ">")
    ∧ (∀ uid, resolveReactorName none uid = "<@" ++ uid ++ ">")
    ∧ linkLineOf none = "" := by
  have h1 := handleReactionAdded_submit cfg env ev store now ch ts nm d m
    hen hch hch0 hts hts0 hre hdd hinfo hdeal hhist
  refine ⟨?_, ?_, ?_, ?_, rfl⟩
  · rw [h1]
    cases env.noteRes with
    | error diag => rfl
    | ok b => cases b <;> rfl
  · rw [h1]
    cases env.noteRes with
    | error diag => rfl
    | ok b => cases b <;> rfl
  · intro u
    simp [resolveAuthorName, jsOrStr]
  · intro uid
    simp [resolveReactorName, jsOrStr]

/-- C6 witness: a run in which all three lookups fail (all `none`): the
note is still submitted, built from the fallback values. -/
theorem identity_resolution_best_effort_witness :
    (handleReactionAdded { enableReactionToPdNote := true, reactionUploadFiles := false }
      { infoRes := Except.ok "rcn-acme-deal42", histRes := Except.ok (some { user := some "UA", text := some "hi", files := none }),
        authorRes := none, reactorRes := none, permalinkRes := none,
        fileDownloadOk := fun _ => false, noteRes := Except.ok true }
      { reaction := "white_check_mark", user := "UB", channel := some "C1", ts := some "111.22" }
      [] 1000).2.pdNoteCalls =
      [(42, buildNoteFromSlack "rcn-acme-deal42" (resolveReactorName none "UB")
        (resolveAuthorName none (some "UA")) none "hi" [])] := by
  have h := identity_resolution_best_effort
    { enableReactionToPdNote := true, reactionUploadFiles := false }
    { infoRes := Except.ok "rcn-acme-deal42", histRes := Except.ok (some { user := some "UA", text := some "hi", files := none }),
      authorRes := none, reactorRes := none, permalinkRes := none,
      fileDownloadOk := fun _ => false, noteRes := Except.ok true }
    { reaction := "white_check_mark", user := "UB", channel := some "C1", ts := some "111.22" }
    [] 1000 "C1" "111.22" "rcn-acme-deal42" "42"
    { user := some "UA", text := some "hi", files := none }
    rfl rfl (by decide) rfl (by decide) (by decide) (by decide) rfl (by decide) rfl
  exact h.1.trans (by decide)

/- ===== C10 ===== -/

/-- C10: a fetched message with no author user id does not stop the run:
the author users.info lookup is skipped (only the reactor lookup is made),
the note renders the author as the literal "unknown", and the note is
still submitted; on success the key is marked and the success reply
posted. -/
theorem authorless_message_fallback
    (cfg : Config) (env : Env) (ev : ReactionEvent) (store : DedupeStore) (now : Nat)
    (ch ts nm d : String) (m : Msg)
    (hen : cfg.enableReactionToPdNote = true)
    (hch : ev.channel = some ch) (hch0 : ch ≠ "")
    (hts : ev.ts = some ts) (hts0 : ts ≠ "")
    (hre : PD_NOTE_REACTIONS.contains ev.reaction = true)
    (hdd : recentlyNoted store (ch ++ ":" ++ ts) now = false)
    (hinfo : env.infoRes = Except.ok nm)
    (hdeal : extractDealIdFromChannelName nm = some d)
    (hhist : env.histRes = Except.ok (some m))
    (hau : m.user = none)
    (hnote : env.noteRes = Except.ok true) :
    (handleReactionAdded cfg env ev store now).2.userInfoCalls = 1
    ∧ (handleReactionAdded cfg env ev store now).2.pdNoteCalls =
        [(jsNumberOfDigits d,
          buildNoteFromSlack nm (resolveReactorName env.reactorRes ev.user) "unknown"
            env.permalinkRes (m.text.getD "")
            ((m.files.getD []).map (fun f => f.name ++ " (" ++ f.filetype ++ ")")))]
    ∧ (handleReactionAdded cfg env ev store now).1 = mapSet store (ch ++ ":" ++ ts) now
    ∧ (handleReactionAdded cfg env ev store now).2.threadReplies = [successReply d] := by
  have h1 := handleReactionAdded_submit cfg env ev store now ch ts nm d m
    hen hch hch0 hts hts0 hre hdd hinfo hdeal hhist
  rw [hnote] at h1
  refine ⟨?_, ?_, ?_, ?_⟩
  · rw [h1]
    simp [submitBaseEffects, hau]
  · rw [h1]
    simp [submitBaseEffects, submitContent, hau, resolveAuthorName, jsOrStr]
  · rw [h1]
  · rw [h1]

/-- C10 witness: a bot-authored message (no user id) still produces one
submitted note with the author line "unknown". -/
theorem authorless_message_fallback_witness :
    (handleReactionAdded { enableReactionToPdNote := true, reactionUploadFiles := false }
      { infoRes := Except.ok "rcn-acme-deal42", histRes := Except.ok (some { user := none, text := some "bot says hi", files := none }),
        authorRes := none, reactorRes := none, permalinkRes := none,
        fileDownloadOk := fun _ => false, noteRes := Except.ok true }
      { reaction := "white_check_mark", user := "UB", channel := some "C1", ts := some "111.22" }
      [] 1000).2.userInfoCalls = 1
    ∧ (handleReactionAdded { enableReactionToPdNote := true, reactionUploadFiles := false }
      { infoRes := Except.ok "rcn-acme-deal42", histRes := Except.ok (some { user := none, text := some "bot says hi", files := none }),
        authorRes := none, reactorRes := none, permalinkRes := none,
        fileDownloadOk := fun _ => false, noteRes := Except.ok true }
      { reaction := "white_check_mark", user := "UB", channel := some "C1", ts := some "111.22" }
      [] 1000).2.pdNoteCalls =
      [(42, buildNoteFromSlack "rcn-acme-deal42" (resolveReactorName none "UB") "unknown"
        none "bot says hi" [])] := by
  have h := authorless_message_fallback
    { enableReactionToPdNote := true, reactionUploadFiles := false }
    { infoRes := Except.ok "rcn-acme-deal42", histRes := Except.ok (some { user := none, text := some "bot says hi", files := none }),
      authorRes := none, reactorRes := none, permalinkRes := none,
      fileDownloadOk := fun _ => false, noteRes := Except.ok true }
    { reaction := "white_check_mark", user := "UB", channel := some "C1", ts := some "111.22" }
    [] 1000 "C1" "111.22" "rcn-acme-deal42" "42"
    { user := none, text := some "bot says hi", files := none }
    rfl rfl (by decide) rfl (by decide) (by decide) (by decide) rfl (by decide) rfl rfl rfl
  exact ⟨h.1, h.2.1.trans (by decide)⟩

/- ===== C9 ===== -/

/-- C9 counterexample: the claim says every channel-join path terminates
silently when a recon channel name has no extractable deal id, but variant
A of the join flow (startReconChannel, src/index.js lines 171-179) posts a
user-visible channel message in exactly that case.  "rcn-foo" is a recon
channel for variant A and has no deal id. -/
theorem startReconChannel_posts_on_missing_deal_cx :
    isReconChannelNameA "rcn-foo" = true
    ∧ (startReconChannel { pmFieldVal := Except.ok none, permalinkRes := none }
        "rcn-foo").channelMessages =
      ["⚠️ Recon channel name must include `deal###` (example: `rcn-smith-deal603`)."] := by
  constructor
  · decide
  · decide

/-- C9 (amended): asymmetric missing-deal-id policy of variant B.  For any
channel name without an extractable deal id, the reaction path posts
exactly one format-guidance reply in the thread and terminates with no CRM
call; variant B's channel-join path terminates silently (the baseline
invite is issued, no message is posted, no deal fetch).  Variant A's
older join flow instead posts a channel warning (see the
counterexample). -/
theorem missing_deal_id_policy
    (cfg : Config) (env : Env) (ev : ReactionEvent) (store : DedupeStore) (now : Nat)
    (ch ts nm : String)
    (hen : cfg.enableReactionToPdNote = true)
    (hch : ev.channel = some ch) (hch0 : ch ≠ "")
    (hts : ev.ts = some ts) (hts0 : ts ≠ "")
    (hre : PD_NOTE_REACTIONS.contains ev.reaction = true)
    (hdd : recentlyNoted store (ch ++ ":" ++ ts) now = false)
    (hinfo : env.infoRes = Except.ok nm)
    (hnone : extractDealIdFromChannelName nm = none)
    (jenv : JoinEnv) (jn : String)
    (hji : jenv.infoRes = Except.ok jn)
    (hjr : isReconChannelName jn = true)
    (hjn : extractDealIdFromChannelName jn = none) :
    handleReactionAdded cfg env ev store now =
      (store, { noEffects with infoCalls := 1, threadReplies := [dealFormatReply] })
    ∧ handleBotJoinedChannel jenv =
      { joinCalls := 1, infoCalls := 1, inviteCalls := 1, dealFetches := 0, channelMessages := [] } := by
  have hre' : ev.reaction ∈ PD_NOTE_REACTIONS := by simpa using hre
  constructor
  · unfold handleReactionAdded
    rw [hch, hts]
    simp [hen, hre', hch0, hts0, hdd, hinfo, hnone]
  · unfold handleBotJoinedChannel
    rw [hji]
    simp [hjr, hjn]
    rfl

/-- C9 witness: the theorem applied to concrete runs, with channel name
"rcn-acme-nodeals" on both paths. -/
theorem missing_deal_id_policy_witness :
    handleReactionAdded { enableReactionToPdNote := true, reactionUploadFiles := false }
      { infoRes := Except.ok "rcn-acme-nodeals", histRes := Except.ok none,
        authorRes := none, reactorRes := none, permalinkRes := none,
        fileDownloadOk := fun _ => false, noteRes := Except.ok true }
      { reaction := "white_check_mark", user := "UB", channel := some "C1", ts := some "111.22" }
      [] 1000 =
      ([], { noEffects with infoCalls := 1, threadReplies := [dealFormatReply] })
    ∧ handleBotJoinedChannel { infoRes := Except.ok "rcn-acme-nodeals", dealRes := Except.ok none } =
      { joinCalls := 1, infoCalls := 1, inviteCalls := 1, dealFetches := 0, channelMessages := [] } :=
  missing_deal_id_policy
    { enableReactionToPdNote := true, reactionUploadFiles := false }
    { infoRes := Except.ok "rcn-acme-nodeals", histRes := Except.ok none,
      authorRes := none, reactorRes := none, permalinkRes := none,
      fileDownloadOk := fun _ => false, noteRes := Except.ok true }
    { reaction := "white_check_mark", user := "UB", channel := some "C1", ts := some "111.22" }
    [] 1000 "C1" "111.22" "rcn-acme-nodeals"
    rfl rfl (by decide) rfl (by decide) (by decide) (by decide) rfl (by decide)
    { infoRes := Except.ok "rcn-acme-nodeals", dealRes := Except.ok none }
    "rcn-acme-nodeals" rfl (by decide) (by decide)
